import Mathlib

/-!
Verification of the hybrid audio-segment localization core of this
repository, embedded shallowly from
`src/audio-matching-test/scripts/match-audio-dtw.py` and
`src/archived/audio-matching-test/scripts/match-audio-hybrid.py`.

Times, durations, costs and confidences are modelled as rationals (the
Python scripts compute with floats; no verified claim depends on float
rounding, and every constant appearing in the scripts — 2.0, 2.5, 5.0,
1.1, 1.5, 512, 22050 — is exactly representable). Feature matrices enter
the aligner only through the per-frame distance function, which we keep
as an explicit parameter: the scripts use the Euclidean frame distance
of librosa, whose square roots are not rational in general, and none of
the verified properties depend on the values of the metric, so theorems
quantify over an arbitrary distance function (concrete evaluations
instantiate it with one-dimensional features, where the Euclidean
distance is `|x - y|` and is exactly rational).
-/

/-- The function `calculate_smart_buffer` from
`src/archived/audio-matching-test/scripts/match-audio-hybrid.py`
(lines 163–189): lead buffer 2.0 s shrunk to `start_time` near the start
of the song, tail buffer 2.5 s shrunk to `full_duration - end_time` near
the end. Returns `(buffer_start, buffer_end)`. The Python function
performs no validation of its arguments. -/
def calculate_smart_buffer (start_time end_time full_duration : ℚ) : ℚ × ℚ :=
  let buffer_start : ℚ := 2
  let buffer_end : ℚ := 5 / 2
  let buffer_start := if start_time < buffer_start then start_time else buffer_start
  let buffer_end := if end_time + buffer_end > full_duration then full_duration - end_time
                    else buffer_end
  (buffer_start, buffer_end)

/-- The crop boundaries computed in `main` of `match-audio-hybrid.py`
(lines 344–347): `actual_start = max(0, crop_start - buffer_start)`,
`actual_end = min(full_duration, crop_end + buffer_end)`, where the
buffers come from `calculate_smart_buffer`. Returns
`(actual_start, actual_end)`. -/
def crop_bounds (match_start match_end full_duration : ℚ) : ℚ × ℚ :=
  let b := calculate_smart_buffer match_start match_end full_duration
  (max 0 (match_start - b.1), min full_duration (match_end + b.2))

/-- The confidence calibration used by both matching scripts
(`match-audio-dtw.py` line 153, `match-audio-hybrid.py` line 90):
`confidence = max(0, min(1, 1 - cost / 5.0))`. -/
def dtw_confidence (cost : ℚ) : ℚ := max 0 (min 1 (1 - cost / 5))

/-- The search-window size of the sliding-window aligner
(`match-audio-dtw.py` line 97, `match-audio-hybrid.py` line 61):
`window_size = int(clip_frames * 1.5)`. The Python `int()` truncates,
and `clip_frames * 1.5` is exact in binary floating point, so this is
the natural-number division `clip_frames * 3 / 2`. -/
def window_size (clip_frames : ℕ) : ℕ := clip_frames * 3 / 2

/-- The coarse search-grid step of the sliding-window aligner
(`match-audio-dtw.py` line 98): `hop_size = max(1, clip_frames // 4)`. -/
def hop_size (clip_frames : ℕ) : ℕ := max 1 (clip_frames / 4)

/-- The raw estimate of the aligner as consumed by `combine_results`:
the Python dict with keys `start`, `end`, `confidence`, `dtw_cost`
produced by `run_dtw_matching` (`end` is a reserved word in Lean and is
rendered `end_time`). The field `dtw_cost` is `none` when the
sliding-window loop never ran and the Python value `float(inf)`
survives to the output. -/
structure DtwResult where
  start : ℚ
  end_time : ℚ
  confidence : ℚ
  dtw_cost : Option ℚ
deriving DecidableEq

/-- The secondary (STT) estimate as consumed by `combine_results`: the
fields `startTime`, `endTime`, `confidence` of the JSON produced by the
external transcript matcher. -/
structure SttResult where
  startTime : ℚ
  endTime : ℚ
  confidence : ℚ
deriving DecidableEq

/-- The record returned by `combine_results`
(`match-audio-hybrid.py` lines 261–268). -/
structure CombinedResult where
  method : String
  crop_start : ℚ
  crop_end : ℚ
  buffer_start : ℚ
  buffer_end : ℚ
  confidence : ℚ
deriving DecidableEq

/-- The function `combine_results` from `match-audio-hybrid.py`
(lines 191–268): agreement within 5 s on both endpoints averages the two
estimates and boosts the mean confidence by 1.1 (capped at 1);
disagreement or a missing secondary passes the DTW estimate through
unchanged; a missing primary passes the STT estimate through; both
missing raises (`none` here). The buffer pair is then computed from the
fused range. -/
def combine_results : Option DtwResult → Option SttResult → ℚ → Option CombinedResult
  | some d, some s, full_duration =>
    if |d.start - s.startTime| < 5 ∧ |d.end_time - s.endTime| < 5 then
      some ⟨"hybrid_validated", (d.start + s.startTime) / 2, (d.end_time + s.endTime) / 2,
            (calculate_smart_buffer ((d.start + s.startTime) / 2)
              ((d.end_time + s.endTime) / 2) full_duration).1,
            (calculate_smart_buffer ((d.start + s.startTime) / 2)
              ((d.end_time + s.endTime) / 2) full_duration).2,
            min 1 ((d.confidence + s.confidence) / 2 * (11 / 10))⟩
    else
      some ⟨"hybrid_dtw_preferred", d.start, d.end_time,
            (calculate_smart_buffer d.start d.end_time full_duration).1,
            (calculate_smart_buffer d.start d.end_time full_duration).2, d.confidence⟩
  | some d, none, full_duration =>
    some ⟨"dtw_only", d.start, d.end_time,
          (calculate_smart_buffer d.start d.end_time full_duration).1,
          (calculate_smart_buffer d.start d.end_time full_duration).2, d.confidence⟩
  | none, some s, full_duration =>
    some ⟨"stt_only", s.startTime, s.endTime,
          (calculate_smart_buffer s.startTime s.endTime full_duration).1,
          (calculate_smart_buffer s.startTime s.endTime full_duration).2, s.confidence⟩
  | none, none, _ => none

/-- The Python `range(0, stop, step)` (with `step ≥ 1`), the iteration
space of the sliding-window loop in `find_audio_offset_dtw`
(`match-audio-dtw.py` line 110): empty when `stop ≤ 0`, otherwise
`[0, step, 2*step, ...]` up to but excluding `stop`. -/
def pythonRange (stop : ℤ) (step : ℕ) : List ℕ :=
  if stop ≤ 0 then [] else (List.range ((stop - 1).toNat / step + 1)).map (fun k => k * step)

/-- The accumulated-cost matrix of `librosa.sequence.dtw` with its
default step sizes `(1,1), (0,1), (1,0)` and unit weights, as used by
`find_audio_offset_dtw`: `D[0,0] = d(0,0)`, first row and column are
cumulative sums, and
`D[r,c] = d(r,c) + min(D[r-1,c-1], D[r-1,c], D[r,c-1])`. The per-frame
distance `d` is a parameter (the scripts use the Euclidean frame
distance, whose values are irrational in general; no verified property
depends on the values of the metric). -/
def dtwD (d : ℕ → ℕ → ℚ) : ℕ → ℕ → ℚ
  | 0, 0 => d 0 0
  | 0, c + 1 => dtwD d 0 c + d 0 (c + 1)
  | r + 1, 0 => dtwD d r 0 + d (r + 1) 0
  | r + 1, c + 1 =>
      d (r + 1) (c + 1) + min (dtwD d r c) (min (dtwD d r (c + 1)) (dtwD d (r + 1) c))
termination_by r c => (r, c)

/-- The backtracking of `librosa.sequence.dtw` (no `subseq`): starting
from the bottom-right cell `(r, c)` of the accumulated-cost matrix, step
to the predecessor of least accumulated cost, ties broken in the step
order diagonal, `(0,1)` (same row), `(1,0)` (same column) exactly as
`np.argmin` does over the `step_sizes_sigma` of librosa, until `(0, 0)`.
librosa appends the points as it walks and returns the list without
reversing it, so the HEAD of the returned path is the END of the warping
path, `(N-1, M-1)`, and its last element is the start of the path,
`(0, 0)` — this ordering is what `best_path[0, 1]` in the scripts
actually reads. The first argument is fuel; any fuel `> r + c` is enough
to reach `(0, 0)`. -/
def dtwBacktrack (D : ℕ → ℕ → ℚ) : ℕ → ℕ → ℕ → List (ℕ × ℕ)
  | 0, r, c => [(r, c)]
  | _ + 1, 0, 0 => [(0, 0)]
  | fuel + 1, 0, c + 1 => (0, c + 1) :: dtwBacktrack D fuel 0 c
  | fuel + 1, r + 1, 0 => (r + 1, 0) :: dtwBacktrack D fuel r 0
  | fuel + 1, r + 1, c + 1 =>
      (r + 1, c + 1) ::
        (if D r c ≤ D (r + 1) c ∧ D r c ≤ D r (c + 1) then dtwBacktrack D fuel r c
         else if D (r + 1) c ≤ D r (c + 1) then dtwBacktrack D fuel (r + 1) c
         else dtwBacktrack D fuel r (c + 1))

/-- The distance restricted to the window at offset `i`
(`window = features_full[:, i:i+window_size]` in the scripts):
clip frame `r` against full-track frame `i + c`. -/
def windowDist (d : ℕ → ℕ → ℚ) (i : ℕ) : ℕ → ℕ → ℚ := fun r c => d r (i + c)

/-- The warping path `wp` returned by `librosa.sequence.dtw` for the
window at offset `i` (in the end-to-start order of librosa, see
`dtwBacktrack`). -/
def windowPath (d : ℕ → ℕ → ℚ) (i clip_frames wsize : ℕ) : List (ℕ × ℕ) :=
  dtwBacktrack (dtwD (windowDist d i)) (clip_frames + wsize) (clip_frames - 1) (wsize - 1)

/-- The per-window normalized DTW cost of the scripts:
`cost = D[-1, -1] / len(wp)` (`match-audio-dtw.py` line 124). -/
def windowNormCost (d : ℕ → ℕ → ℚ) (i clip_frames wsize : ℕ) : ℚ :=
  dtwD (windowDist d i) (clip_frames - 1) (wsize - 1) /
    ((windowPath d i clip_frames wsize).length : ℚ)

/-- The running best of the sliding-window loop: the Python variables
`best_cost` (`float(inf)` modelled as `none`), `best_position`,
`best_path` (`None` modelled as `none`). -/
structure AlignState where
  best_cost : Option ℚ
  best_position : ℕ
  best_path : Option (List (ℕ × ℕ))
deriving DecidableEq

/-- One iteration of the sliding-window loop
(`match-audio-dtw.py` lines 110–131): compute the normalized DTW cost of
the window and keep it iff it is strictly below the best seen so far
(first-seen wins ties; `cost < inf` always holds, so the first window
always replaces the initial state). -/
def alignStep (d : ℕ → ℕ → ℚ) (clip_frames wsize : ℕ) (st : AlignState) (i : ℕ) :
    AlignState :=
  let cost := windowNormCost d i clip_frames wsize
  match st.best_cost with
  | none => ⟨some cost, i, some (windowPath d i clip_frames wsize)⟩
  | some b =>
    if cost < b then ⟨some cost, i, some (windowPath d i clip_frames wsize)⟩ else st

/-- The variable `window_start_frame` of the scripts
(`match-audio-dtw.py` lines 139–144): `best_path[0, 1]` when a path was
found, else `0`. The comment in the code calls this the "first alignment
point in the window", but `best_path[0]` is the head of the un-reversed
backtracking of librosa, i.e. the LAST point of the warping path. -/
def window_start_frame : Option (List (ℕ × ℕ)) → ℕ
  | some wp => (wp.headD (0, 0)).2
  | none => 0

/-- The final confidence of `find_audio_offset_dtw`: `dtw_confidence` of
the best cost; with no window analysed, `best_cost` stays infinite and
the Python expression `max(0, min(1, 1 - inf/5.0))` evaluates to `0`. -/
def best_confidence : Option ℚ → ℚ
  | none => 0
  | some c => dtw_confidence c

/-- The function `find_audio_offset_dtw` from
`src/audio-matching-test/scripts/match-audio-dtw.py` (lines 40–163) from
the feature-extraction point on (feature extraction is the out-of-scope
FeatureExtractor; the matrices enter only through the per-frame distance
`d`, and `clip_duration` is the duration of the clip in seconds). Slides
windows of `window_size clip_frames` frames over the full track at
`hop_size clip_frames` steps, keeps the lowest normalized DTW cost,
converts `best_position + best_path[0, 1]` to seconds via
`hop_length / sr = 512 / 22050`, and reports
`end = start + clip_duration`. The function `run_dtw_matching` in
`match-audio-hybrid.py` (lines 31–99) is the same computation. -/
def find_audio_offset_dtw (d : ℕ → ℕ → ℚ) (clip_frames full_frames : ℕ)
    (clip_duration : ℚ) : DtwResult :=
  let wsize := window_size clip_frames
  let st := (pythonRange ((full_frames : ℤ) - wsize + 1) (hop_size clip_frames)).foldl
      (alignStep d clip_frames wsize) ⟨none, 0, none⟩
  let actual_start_frame := st.best_position + window_start_frame st.best_path
  let start_time := (actual_start_frame : ℚ) * 512 / 22050
  { start := start_time
    end_time := start_time + clip_duration
    confidence := best_confidence st.best_cost
    dtw_cost := st.best_cost }

/-- One-dimensional clip features for concrete evaluation (for
one-dimensional frames the Euclidean frame distance is `|x - y|`,
which is exactly rational). -/
def clip1 : List ℚ := [0, 1]

/-- One-dimensional full-track features for concrete evaluation: the clip
`[0, 1]` occurs at offset 0. -/
def full1 : List ℚ := [0, 1, 5, 5]

/-- Euclidean frame distance between `clip1` and `full1`. -/
def dist1 (r c : ℕ) : ℚ := |clip1.getD r 0 - full1.getD c 0|

/-- C2: for every valid input `0 ≤ match_start < match_end ≤ full_duration`,
the clamps in `main` are no-ops — `crop_start = match_start - lead` and
`crop_end = match_end + tail` exactly as computed by
`calculate_smart_buffer` — and the output satisfies
`0 ≤ crop_start < crop_end ≤ full_duration`. -/
theorem crop_bounds_valid (s e full : ℚ) (h0 : 0 ≤ s) (hse : s < e) (hef : e ≤ full) :
    (crop_bounds s e full).1 = s - (calculate_smart_buffer s e full).1 ∧
    (crop_bounds s e full).2 = e + (calculate_smart_buffer s e full).2 ∧
    0 ≤ (crop_bounds s e full).1 ∧
    (crop_bounds s e full).1 < (crop_bounds s e full).2 ∧
    (crop_bounds s e full).2 ≤ full := by
  obtain ⟨hbs0, hbss, hbe0, hbef⟩ :
      0 ≤ (calculate_smart_buffer s e full).1 ∧ (calculate_smart_buffer s e full).1 ≤ s ∧
      0 ≤ (calculate_smart_buffer s e full).2 ∧
      e + (calculate_smart_buffer s e full).2 ≤ full := by
    simp only [calculate_smart_buffer]
    split_ifs with h1 h2 h2 <;> exact ⟨by linarith, by linarith, by linarith, by linarith⟩
  have c1 : (crop_bounds s e full).1 = s - (calculate_smart_buffer s e full).1 := by
    simp only [crop_bounds]
    exact max_eq_right (by linarith)
  have c2 : (crop_bounds s e full).2 = e + (calculate_smart_buffer s e full).2 := by
    simp only [crop_bounds]
    exact min_eq_right (by linarith)
  exact ⟨c1, c2, by rw [c1]; linarith, by rw [c1, c2]; linarith, by rw [c2]; linarith⟩

/-- Witness for C2 at `(match_start, match_end, full_duration) = (1, 3, 10)`. -/
theorem crop_bounds_valid_witness :
    (crop_bounds 1 3 10).1 = 1 - (calculate_smart_buffer 1 3 10).1 ∧
    (crop_bounds 1 3 10).2 = 3 + (calculate_smart_buffer 1 3 10).2 ∧
    0 ≤ (crop_bounds 1 3 10).1 ∧
    (crop_bounds 1 3 10).1 < (crop_bounds 1 3 10).2 ∧
    (crop_bounds 1 3 10).2 ≤ 10 :=
  crop_bounds_valid 1 3 10 (by norm_num) (by norm_num) (by norm_num)

/-- C3: boundary behaviour of the crop computation on valid inputs:
if `match_start = 0` the crop starts exactly at `0`, and if
`match_end + 2.5 ≥ full_duration` (the match ends within the default
tail of the end of the song) the crop ends exactly at `full_duration`. -/
theorem crop_bounds_boundary (s e full : ℚ) (h0 : 0 ≤ s) (hse : s < e) (hef : e ≤ full) :
    (s = 0 → (crop_bounds s e full).1 = 0) ∧
    (full ≤ e + 5 / 2 → (crop_bounds s e full).2 = full) := by
  constructor
  · intro hs
    subst hs
    simp only [crop_bounds, calculate_smart_buffer]
    split_ifs with h1 h2 h2 <;> simp <;> linarith
  · intro htail
    simp only [crop_bounds, calculate_smart_buffer]
    rcases lt_or_ge full (e + 5 / 2) with h2 | h2
    · split_ifs with h1 <;> simp <;> linarith
    · have hfull : full = e + 5 / 2 := le_antisymm (by linarith) h2
      split_ifs with h1 h3 h3 <;> simp <;> linarith

/-- Witness for C3 at `(0, 1, 2)`: both boundary conditions fire there
(`match_start = 0` and `2 ≤ 1 + 2.5`). -/
theorem crop_bounds_boundary_witness :
    (crop_bounds 0 1 2).1 = 0 ∧ (crop_bounds 0 1 2).2 = 2 :=
  ⟨(crop_bounds_boundary 0 1 2 (by norm_num) (by norm_num) (by norm_num)).1 rfl,
   (crop_bounds_boundary 0 1 2 (by norm_num) (by norm_num) (by norm_num)).2 (by norm_num)⟩

/-- C9 counterexample: on the invalid range `match_start = 5 > 3 = match_end`
(with `full_duration = 10`) `calculate_smart_buffer` raises nothing and
returns the ordinary buffer pair `(2, 2.5)` — the claimed
`InvalidMatchRangeError` does not exist anywhere in the code. -/
theorem calculate_smart_buffer_no_validation :
    calculate_smart_buffer 5 3 10 = (2, 5 / 2) := by
  simp [calculate_smart_buffer]
  norm_num

/-- C9 amended: instead of failing fast on invalid ranges, the code
computes buffers unconditionally and `main` silently clamps the crop
boundaries: for all inputs whatsoever, `crop_bounds` satisfies
`0 ≤ crop_start` and `crop_end ≤ full_duration`. -/
theorem crop_bounds_clamped (s e full : ℚ) :
    0 ≤ (crop_bounds s e full).1 ∧ (crop_bounds s e full).2 ≤ full :=
  ⟨le_max_left _ _, min_le_left _ _⟩

/-- C6: the confidence is the clamp of `1 - cost / 5` to `[0, 1]`, hence
always lies in `[0, 1]`, and it is antitone in the DTW cost: a strictly
lower cost never gets a strictly lower confidence. -/
theorem dtw_confidence_clamped_antitone (ca cb : ℚ) :
    0 ≤ dtw_confidence ca ∧ dtw_confidence ca ≤ 1 ∧
    (ca < cb → dtw_confidence cb ≤ dtw_confidence ca) := by
  refine ⟨le_max_left _ _, max_le (by norm_num) (min_le_left _ _), fun h => ?_⟩
  exact max_le_max le_rfl (min_le_min le_rfl (by linarith))

/-- Witness for C6 at costs `1 < 6`. -/
theorem dtw_confidence_clamped_antitone_witness :
    0 ≤ dtw_confidence 1 ∧ dtw_confidence 1 ≤ 1 ∧ dtw_confidence 6 ≤ dtw_confidence 1 :=
  ⟨(dtw_confidence_clamped_antitone 1 6).1, (dtw_confidence_clamped_antitone 1 6).2.1,
   (dtw_confidence_clamped_antitone 1 6).2.2 (by norm_num)⟩

/-- C7 counterexample: for `clip_len = 1` the window size of the code is
`int(1 * 1.5) = 1`, not the claimed `ceil(1 * 1.5) = (3 * 1 + 1) / 2 = 2`. -/
theorem window_size_one_not_ceil : window_size 1 = 1 ∧ window_size 1 ≠ (3 * 1 + 1) / 2 := by
  exact ⟨rfl, by decide⟩

/-- C7 amended: the window size is the floor (truncation), not the
ceiling, of `clip_len * 1.5`. -/
theorem window_size_eq_floor (n : ℕ) : window_size n = ⌊(n : ℚ) * (3 / 2)⌋₊ := by
  have h : (n : ℚ) * (3 / 2) = ((n * 3 : ℕ) : ℚ) / ((2 : ℕ) : ℚ) := by push_cast; ring
  rw [window_size, h, Nat.floor_div_nat, Nat.floor_natCast]

/-- C4: when both estimates are present and agree within 5 s on both
endpoints, the fused start and end are the arithmetic means, the fused
confidence is `min(1, mean_confidence * 1.1)`, and the method tag is the
agreement tag `hybrid_validated`. -/
theorem combine_results_agreement (d : DtwResult) (s : SttResult) (full : ℚ)
    (h1 : |d.start - s.startTime| < 5) (h2 : |d.end_time - s.endTime| < 5) :
    combine_results (some d) (some s) full =
      some ⟨"hybrid_validated", (d.start + s.startTime) / 2, (d.end_time + s.endTime) / 2,
            (calculate_smart_buffer ((d.start + s.startTime) / 2)
              ((d.end_time + s.endTime) / 2) full).1,
            (calculate_smart_buffer ((d.start + s.startTime) / 2)
              ((d.end_time + s.endTime) / 2) full).2,
            min 1 ((d.confidence + s.confidence) / 2 * (11 / 10))⟩ := by
  simp only [combine_results, if_pos (And.intro h1 h2)]

/-- Witness for C4 at the agreement scenario of the spec,
`primary = (40, 50, 0.9)`, `secondary = (42, 51, 0.8)`, song length 100 s:
the fusion is `(41, 50.5)` with confidence `0.935 = 187/200`. -/
theorem combine_results_agreement_witness :
    combine_results (some ⟨40, 50, 9 / 10, none⟩) (some ⟨42, 51, 4 / 5⟩) 100 =
      some ⟨"hybrid_validated", 41, 101 / 2, 2, 5 / 2, 187 / 200⟩ := by
  rw [combine_results_agreement ⟨40, 50, 9 / 10, none⟩ ⟨42, 51, 4 / 5⟩ 100
    (by rw [abs_lt]; constructor <;> norm_num) (by rw [abs_lt]; constructor <;> norm_num)]
  norm_num [calculate_smart_buffer]

/-- C5: the primary (DTW) estimate passes through unchanged both when the
secondary is unavailable (`dtw_only`) and when the two estimates disagree
by at least 5 s on either endpoint (`hybrid_dtw_preferred`). -/
theorem combine_results_primary_passthrough (d : DtwResult) (s : SttResult) (full : ℚ)
    (h : 5 ≤ |d.start - s.startTime| ∨ 5 ≤ |d.end_time - s.endTime|) :
    combine_results (some d) none full =
      some ⟨"dtw_only", d.start, d.end_time,
            (calculate_smart_buffer d.start d.end_time full).1,
            (calculate_smart_buffer d.start d.end_time full).2, d.confidence⟩ ∧
    combine_results (some d) (some s) full =
      some ⟨"hybrid_dtw_preferred", d.start, d.end_time,
            (calculate_smart_buffer d.start d.end_time full).1,
            (calculate_smart_buffer d.start d.end_time full).2, d.confidence⟩ := by
  constructor
  · simp only [combine_results]
  · have hneg : ¬(|d.start - s.startTime| < 5 ∧ |d.end_time - s.endTime| < 5) := by
      rcases h with h | h
      · exact fun hc => absurd hc.1 (not_lt.mpr h)
      · exact fun hc => absurd hc.2 (not_lt.mpr h)
    simp only [combine_results, if_neg hneg]

/-- Witness for C5 at the disagreement scenario of the spec,
`primary = (40, 50, 0.9)`, `secondary = (60, 70, 0.7)`, song length 100 s. -/
theorem combine_results_primary_passthrough_witness :
    combine_results (some ⟨40, 50, 9 / 10, none⟩) none 100 =
      some ⟨"dtw_only", 40, 50, 2, 5 / 2, 9 / 10⟩ ∧
    combine_results (some ⟨40, 50, 9 / 10, none⟩) (some ⟨60, 70, 7 / 10⟩) 100 =
      some ⟨"hybrid_dtw_preferred", 40, 50, 2, 5 / 2, 9 / 10⟩ := by
  have h := combine_results_primary_passthrough ⟨40, 50, 9 / 10, none⟩ ⟨60, 70, 7 / 10⟩ 100
    (Or.inl (by rw [abs_of_nonpos] <;> norm_num))
  rw [h.1, h.2]
  norm_num [calculate_smart_buffer]

/-- The loop range is empty when the full track has fewer frames than the
search window. -/
theorem pythonRange_empty_of_short (clip_frames full_frames : ℕ)
    (h : full_frames < window_size clip_frames) :
    pythonRange ((full_frames : ℤ) - window_size clip_frames + 1) (hop_size clip_frames)
      = [] := by
  have hstop : ((full_frames : ℤ) - window_size clip_frames + 1) ≤ 0 := by
    have : (full_frames : ℤ) + 1 ≤ (window_size clip_frames : ℤ) := by exact_mod_cast h
    linarith
  simp only [pythonRange, if_pos hstop]

/-- With an empty loop the aligner returns the degenerate record:
start `0`, end `clip_duration`, confidence `0`, cost infinite (`none`). -/
theorem find_audio_offset_dtw_of_short (d : ℕ → ℕ → ℚ) (clip_frames full_frames : ℕ)
    (clip_duration : ℚ) (h : full_frames < window_size clip_frames) :
    find_audio_offset_dtw d clip_frames full_frames clip_duration =
      ⟨0, clip_duration, 0, none⟩ := by
  simp only [find_audio_offset_dtw, pythonRange_empty_of_short clip_frames full_frames h,
    List.foldl_nil, window_start_frame, best_confidence]
  norm_num

/-- C10: when the feature sequence of the full track has fewer frames than
`window_size`, the sliding-window loop runs zero iterations and the
aligner returns, without raising, the degenerate record with
`start = 0`, `end = clip_duration` and `confidence = 0`. -/
theorem find_audio_offset_dtw_short_track (d : ℕ → ℕ → ℚ) (clip_frames full_frames : ℕ)
    (clip_duration : ℚ) (h : full_frames < window_size clip_frames) :
    pythonRange ((full_frames : ℤ) - window_size clip_frames + 1) (hop_size clip_frames)
        = [] ∧
    find_audio_offset_dtw d clip_frames full_frames clip_duration =
      ⟨0, clip_duration, 0, none⟩ :=
  ⟨pythonRange_empty_of_short clip_frames full_frames h,
   find_audio_offset_dtw_of_short d clip_frames full_frames clip_duration h⟩

/-- Witness for C10 at `clip_frames = 4`, `full_frames = 5`
(`window_size 4 = 6 > 5`), clip duration `10` s, with a concrete
one-dimensional distance. -/
theorem find_audio_offset_dtw_short_track_witness :
    pythonRange ((5 : ℤ) - window_size 4 + 1) (hop_size 4) = [] ∧
    find_audio_offset_dtw (fun r c => |(r : ℚ) - c|) 4 5 10 = ⟨0, 10, 0, none⟩ :=
  find_audio_offset_dtw_short_track (fun r c => |(r : ℚ) - c|) 4 5 10 (by decide)

/-- C1 (code bug): concrete run with `clip1` (2 frames, duration 1 s)
against `full1` (4 frames), `window_size = 3`, windows at offsets 0 and 1,
offset 0 winning with normalized cost `4/3`. The warping path of the
winning window starts at column 0 (`getLastD`, the path of librosa being
returned end-first), yet the reported start is
`best_position + best_path[0, 1]` where `best_path[0, 1]` (`headD`) is
the END column of the path, `window_size - 1 = 2` — the comment in the
code says "first alignment point in the window", but it reads the last. -/
theorem find_audio_offset_dtw_adds_path_end_column :
    (find_audio_offset_dtw dist1 2 4 1).dtw_cost = some (4 / 3) ∧
    ((windowPath dist1 0 2 (window_size 2)).getLastD (0, 0)).2 = 0 ∧
    ((windowPath dist1 0 2 (window_size 2)).headD (0, 0)).2 = window_size 2 - 1 ∧
    (find_audio_offset_dtw dist1 2 4 1).start =
      ((0 + ((windowPath dist1 0 2 (window_size 2)).headD (0, 0)).2 : ℕ) : ℚ) * 512 / 22050 ∧
    (find_audio_offset_dtw dist1 2 4 1).start ≠
      ((0 + ((windowPath dist1 0 2 (window_size 2)).getLastD (0, 0)).2 : ℕ) : ℚ)
        * 512 / 22050 := by
  refine ⟨?_, ?_, ?_, ?_, ?_⟩ <;>
    norm_num [find_audio_offset_dtw, pythonRange, window_size, hop_size, List.range_succ,
      alignStep, window_start_frame, best_confidence, windowNormCost, windowPath,
      dtwBacktrack, dtwD, windowDist, dist1, clip1, full1]

/-- C8 counterexample: with a 2-frame full track and a 2-frame clip
(`window_size 2 = 3 > 2`, the full track shorter than the search window)
the aligner raises nothing and returns a result record — no
`TrackTooShortError` exists anywhere in the code. -/
theorem find_audio_offset_dtw_no_short_error :
    find_audio_offset_dtw dist1 2 2 7 = ⟨0, 7, 0, none⟩ :=
  find_audio_offset_dtw_of_short dist1 2 2 7 (by decide)

/-- C8 amended: when the full track is shorter than the search window the
aligner does not fail; it returns a degenerate low-confidence result
(confidence `0`, cost still infinite). -/
theorem find_audio_offset_dtw_short_no_failure (d : ℕ → ℕ → ℚ)
    (clip_frames full_frames : ℕ) (clip_duration : ℚ)
    (h : full_frames < window_size clip_frames) :
    (find_audio_offset_dtw d clip_frames full_frames clip_duration).confidence = 0 ∧
    (find_audio_offset_dtw d clip_frames full_frames clip_duration).dtw_cost = none := by
  rw [find_audio_offset_dtw_of_short d clip_frames full_frames clip_duration h]
  exact ⟨rfl, rfl⟩

/-- Witness for the amended C8 at `clip_frames = 3`, `full_frames = 3`
(`window_size 3 = 4 > 3`), clip duration `2` s. -/
theorem find_audio_offset_dtw_short_no_failure_witness :
    (find_audio_offset_dtw (fun r c => |(r : ℚ) - 2 * c|) 3 3 2).confidence = 0 ∧
    (find_audio_offset_dtw (fun r c => |(r : ℚ) - 2 * c|) 3 3 2).dtw_cost = none :=
  find_audio_offset_dtw_short_no_failure (fun r c => |(r : ℚ) - 2 * c|) 3 3 2 (by decide)
